import Mathlib

/-!
Verification development for the `sphere2bin` cassette-block decoder
(`spherecas.c` / `spherecas.h`).

The decoder is a byte-at-a-time finite state machine.  We embed it
shallowly: machine integers become `Nat` with explicit wrap-around
(`% 65536` for the `uint16_t` declared-length register, `% 256` for the
`uint8_t` running checksum), the fixed 64 KiB payload buffer together
with its write index `data_count_read` becomes a `List Nat` holding
exactly the bytes written so far (the C code only ever exposes the first
`data_count_read` cells of the buffer to the callback), and the
`spherecas_block_read` callback becomes an explicit list of emitted
block events returned by each step.
-/

/-- The read states of the decoder, from `enum spherecas_read_state`. -/
inductive ReadState where
  | READ_SYNC
  | READ_HEADER_START
  | READ_DATA_LENGTH_HIGH
  | READ_DATA_LENGTH_LOW
  | READ_BLOCK_NAME_1
  | READ_BLOCK_NAME_2
  | READ_DATA
  | READ_ETB
  | READ_CHECKSUM
  deriving DecidableEq, Repr

/-- Block content classification, from `enum spherecas_blocktype`
(`SPHERECAS_BLOCKTYPE_TEXT` is the default, `SPHERECAS_BLOCKTYPE_OBJECT`
is set when a payload byte has its high bit set). -/
inductive spherecas_blocktype where
  | TEXT
  | OBJECT
  deriving DecidableEq, Repr

/-- Error classification, from `enum spherecas_error`. -/
inductive spherecas_error where
  | NONE
  | TRAILER
  | CHECKSUM
  deriving DecidableEq, Repr

/-- The decoder state, from `struct spherecas_state`.  The C fields
`data` (a `uint8_t[0x10000]` buffer) and `data_count_read` (the write
index) are represented by a list `data` of the bytes written so far
together with the numeric index; the list always mirrors
`data[0 .. data_count_read)`. -/
structure spherecas_state where
  read_state : ReadState
  block_name : Nat × Nat
  data_count_expected : Nat
  data_count_read : Nat
  data : List Nat
  checksum : Nat
  block_type : spherecas_blocktype
  deriving DecidableEq, Repr

/-- One event reported through the `spherecas_block_read` callback:
the block name, the payload bytes, the payload length argument, the
content classification and the error classification. -/
structure BlockEvent where
  block_name : Nat × Nat
  data : List Nat
  length : Nat
  block_type : spherecas_blocktype
  error : spherecas_error
  deriving DecidableEq, Repr

/-- `HEADER_SYNC` marker byte (0x16). -/
def HEADER_SYNC : Nat := 0x16

/-- `HEADER_ESC` marker byte (0x1B). -/
def HEADER_ESC : Nat := 0x1B

/-- `HEADER_ETB` end-of-transmission marker byte (0x17). -/
def HEADER_ETB : Nat := 0x17

/-- `spherecas_begin_read`: reset the machine to the sync-seeking state.
The C function leaves `block_name` (and the stale buffer contents past
the reset write index) untouched; resetting the index to 0 corresponds
to clearing the byte list. -/
def spherecas_begin_read (s : spherecas_state) : spherecas_state :=
  { s with
    read_state := ReadState.READ_SYNC
    data_count_expected := 0
    data_count_read := 0
    data := []
    checksum := 0
    block_type := spherecas_blocktype.TEXT }

/-- The initial decoder state: a fresh `struct spherecas_state` right
after `spherecas_begin_read` (the name field is uninitialised in C; we
pick (0,0)). -/
def spherecas_initial : spherecas_state :=
  { read_state := ReadState.READ_SYNC
    block_name := (0, 0)
    data_count_expected := 0
    data_count_read := 0
    data := []
    checksum := 0
    block_type := spherecas_blocktype.TEXT }

/-- `spherecas_read_byte`: feed one byte to the state machine.  Returns
the updated state and the list (empty or a singleton) of block events
reported through the callback during this step.  Field updates mirror
the C switch case by case; `% 65536` models the `uint16_t` register
`data_count_expected` and `% 256` the `uint8_t` checksum. -/
def spherecas_read_byte (s : spherecas_state) (byte : Nat) :
    spherecas_state × List BlockEvent :=
  match s.read_state with
  | ReadState.READ_SYNC =>
      if byte = HEADER_SYNC then
        ({ s with read_state := ReadState.READ_HEADER_START }, [])
      else
        (s, [])
  | ReadState.READ_HEADER_START =>
      if byte = HEADER_ESC then
        ({ s with read_state := ReadState.READ_DATA_LENGTH_HIGH }, [])
      else if byte = HEADER_SYNC then
        (s, [])
      else
        ({ s with read_state := ReadState.READ_SYNC }, [])
  | ReadState.READ_DATA_LENGTH_HIGH =>
      ({ s with
          data_count_expected := (byte <<< 8) % 65536
          read_state := ReadState.READ_DATA_LENGTH_LOW }, [])
  | ReadState.READ_DATA_LENGTH_LOW =>
      ({ s with
          data_count_expected := ((s.data_count_expected ||| byte) + 1) % 65536
          read_state := ReadState.READ_BLOCK_NAME_1 }, [])
  | ReadState.READ_BLOCK_NAME_1 =>
      ({ s with
          block_name := (byte, s.block_name.2)
          read_state := ReadState.READ_BLOCK_NAME_2 }, [])
  | ReadState.READ_BLOCK_NAME_2 =>
      ({ s with
          block_name := (s.block_name.1, byte)
          read_state := ReadState.READ_DATA }, [])
  | ReadState.READ_DATA =>
      let s1 : spherecas_state :=
        { s with
            data := s.data ++ [byte]
            data_count_read := s.data_count_read + 1
            checksum := (s.checksum + byte) % 256 }
      let s2 : spherecas_state :=
        if s1.data_count_read = s1.data_count_expected then
          { s1 with read_state := ReadState.READ_ETB }
        else
          s1
      if byte &&& 0x80 ≠ 0 then
        ({ s2 with block_type := spherecas_blocktype.OBJECT }, [])
      else
        (s2, [])
  | ReadState.READ_ETB =>
      if byte = HEADER_ETB then
        ({ s with read_state := ReadState.READ_CHECKSUM }, [])
      else
        (spherecas_begin_read s,
         [{ block_name := s.block_name
            data := s.data
            length := s.data_count_read
            block_type := s.block_type
            error := spherecas_error.TRAILER }])
  | ReadState.READ_CHECKSUM =>
      (spherecas_begin_read s,
       [{ block_name := s.block_name
          data := s.data
          length := s.data_count_read
          block_type := s.block_type
          error := if byte ≠ s.checksum then spherecas_error.CHECKSUM
                   else spherecas_error.NONE }])

/-- `spherecas_read_bytes`: feed a list of bytes in order, collecting
the emitted block events in order. -/
def spherecas_read_bytes (s : spherecas_state) :
    List Nat → spherecas_state × List BlockEvent
  | [] => (s, [])
  | b :: rest =>
      let r := spherecas_read_byte s b
      let r2 := spherecas_read_bytes r.1 rest
      (r2.1, r.2 ++ r2.2)

/-- Modelled from the spec: the wire format of one encoded block
(§6 of the spec; the repository only decodes, so the encoder has no C
source).  `syncLen` sync bytes, the escape marker, the big-endian
declared length (payload length minus one), the two name bytes, the
payload, the end-of-transmission marker, and an explicit checksum byte. -/
def encodeBlockWith (syncLen : Nat) (name : Nat × Nat) (payload : List Nat)
    (cksum : Nat) : List Nat :=
  List.replicate syncLen HEADER_SYNC ++
    [HEADER_ESC, (payload.length - 1) / 256, (payload.length - 1) % 256,
     name.1, name.2] ++ payload ++ [HEADER_ETB, cksum]

/-- Modelled from the spec: the well-formed encoding of a block, whose
checksum byte is the mod-256 sum of the payload bytes. -/
def encodeBlock (syncLen : Nat) (name : Nat × Nat) (payload : List Nat) :
    List Nat :=
  encodeBlockWith syncLen name payload (payload.sum % 256)

/-- The content classification after folding a list of payload bytes
into a starting classification, as the `READ_DATA` case does byte by
byte. -/
def typeFold (t : spherecas_blocktype) (p : List Nat) : spherecas_blocktype :=
  p.foldl
    (fun t b => if b &&& 0x80 ≠ 0 then spherecas_blocktype.OBJECT else t) t

example :
    (spherecas_read_bytes spherecas_initial
      (encodeBlock 3 (65, 66) [1, 2, 3, 4, 5])).2 =
    [{ block_name := (65, 66), data := [1, 2, 3, 4, 5], length := 5,
       block_type := spherecas_blocktype.TEXT,
       error := spherecas_error.NONE }] := by decide

example :
    (spherecas_read_bytes spherecas_initial
      (encodeBlockWith 3 (65, 66) [1, 2, 3, 4, 5] 0xFF)).2 =
    [{ block_name := (65, 66), data := [1, 2, 3, 4, 5], length := 5,
       block_type := spherecas_blocktype.TEXT,
       error := spherecas_error.CHECKSUM }] := by decide

/-! ### Basic run lemmas -/

theorem run_append (s : spherecas_state) (xs ys : List Nat) :
    spherecas_read_bytes s (xs ++ ys) =
      ((spherecas_read_bytes (spherecas_read_bytes s xs).1 ys).1,
       (spherecas_read_bytes s xs).2 ++
         (spherecas_read_bytes (spherecas_read_bytes s xs).1 ys).2) := by
  induction xs generalizing s with
  | nil => simp [spherecas_read_bytes]
  | cons b xs ih => simp [spherecas_read_bytes, ih, List.append_assoc]

theorem run_header_start_sync (n : Nat) (s : spherecas_state)
    (h : s.read_state = ReadState.READ_HEADER_START) :
    spherecas_read_bytes s (List.replicate n HEADER_SYNC) = (s, []) := by
  induction n with
  | zero => simp [spherecas_read_bytes]
  | succ n ih =>
    rw [List.replicate_succ]
    have hb : spherecas_read_byte s HEADER_SYNC = (s, []) := by
      simp [spherecas_read_byte, h, HEADER_SYNC, HEADER_ESC]
    simp [spherecas_read_bytes, hb, ih]

theorem run_initial_sync (n : Nat) (h : 1 ≤ n) :
    spherecas_read_bytes spherecas_initial (List.replicate n HEADER_SYNC) =
      ({ spherecas_initial with read_state := ReadState.READ_HEADER_START },
       []) := by
  obtain ⟨m, rfl⟩ : ∃ m, n = m + 1 := ⟨n - 1, by omega⟩
  rw [List.replicate_succ]
  have hb : spherecas_read_byte spherecas_initial HEADER_SYNC =
      ({ spherecas_initial with read_state := ReadState.READ_HEADER_START },
       []) := by
    simp [spherecas_read_byte, spherecas_initial, HEADER_SYNC]
  have h2 := run_header_start_sync m
    ({ spherecas_initial with read_state := ReadState.READ_HEADER_START }) rfl
  simp [spherecas_read_bytes, hb, h2]

/-! ### The data phase -/

theorem read_byte_data (s : spherecas_state) (b : Nat)
    (hs : s.read_state = ReadState.READ_DATA) :
    spherecas_read_byte s b =
      ({ s with
          read_state :=
            if s.data_count_read + 1 = s.data_count_expected then
              ReadState.READ_ETB
            else ReadState.READ_DATA
          data_count_read := s.data_count_read + 1
          data := s.data ++ [b]
          checksum := (s.checksum + b) % 256
          block_type :=
            if b &&& 0x80 ≠ 0 then spherecas_blocktype.OBJECT
            else s.block_type }, []) := by
  simp only [spherecas_read_byte, hs]
  by_cases h1 : s.data_count_read + 1 = s.data_count_expected <;>
    by_cases h2 : b &&& 0x80 ≠ 0 <;>
      simp [h1, h2, hs]

theorem run_data_full (p : List Nat) (s : spherecas_state)
    (hs : s.read_state = ReadState.READ_DATA)
    (hlen : s.data_count_read + p.length = s.data_count_expected)
    (hne : p ≠ []) :
    spherecas_read_bytes s p =
      ({ s with
          read_state := ReadState.READ_ETB
          data_count_read := s.data_count_expected
          data := s.data ++ p
          checksum := (s.checksum + p.sum) % 256
          block_type := typeFold s.block_type p }, []) := by
  induction p generalizing s with
  | nil => cases hne rfl
  | cons b q ih =>
    have hb := read_byte_data s b hs
    cases q with
    | nil =>
      have h1 : s.data_count_read + 1 = s.data_count_expected := by
        simpa using hlen
      simp [spherecas_read_bytes, hb, h1, typeFold]
    | cons c q' =>
      have h1 : s.data_count_read + 1 ≠ s.data_count_expected := by
        simp only [List.length_cons] at hlen
        omega
      rw [if_neg h1] at hb
      have hstep : spherecas_read_bytes s (b :: c :: q') =
          ((spherecas_read_bytes (spherecas_read_byte s b).1 (c :: q')).1,
           (spherecas_read_byte s b).2 ++
             (spherecas_read_bytes (spherecas_read_byte s b).1
               (c :: q')).2) := rfl
      have ihs := ih
        { s with
            read_state := ReadState.READ_DATA
            data_count_read := s.data_count_read + 1
            data := s.data ++ [b]
            checksum := (s.checksum + b) % 256
            block_type :=
              if b &&& 0x80 ≠ 0 then spherecas_blocktype.OBJECT
              else s.block_type }
        rfl (by simp at hlen ⊢; omega) (by simp)
      simp only [hstep, hb]
      rw [ihs]
      simp [typeFold, Nat.mod_add_mod, Nat.add_assoc, List.append_assoc]

theorem run_data_events (p : List Nat) (s : spherecas_state)
    (hs : s.read_state = ReadState.READ_DATA)
    (hlen : s.data_count_read + p.length ≤ s.data_count_expected) :
    (spherecas_read_bytes s p).2 = [] := by
  induction p generalizing s with
  | nil => rfl
  | cons b q ih =>
    have hb := read_byte_data s b hs
    cases q with
    | nil => simp [spherecas_read_bytes, hb]
    | cons c q' =>
      have h1 : s.data_count_read + 1 ≠ s.data_count_expected := by
        simp only [List.length_cons] at hlen
        omega
      rw [if_neg h1] at hb
      have hstep : (spherecas_read_bytes s (b :: c :: q')).2 =
          (spherecas_read_byte s b).2 ++
            (spherecas_read_bytes (spherecas_read_byte s b).1 (c :: q')).2 :=
        rfl
      have ihs := ih
        { s with
            read_state := ReadState.READ_DATA
            data_count_read := s.data_count_read + 1
            data := s.data ++ [b]
            checksum := (s.checksum + b) % 256
            block_type :=
              if b &&& 0x80 ≠ 0 then spherecas_blocktype.OBJECT
              else s.block_type }
        rfl (by simp at hlen ⊢; omega)
      simp only [hstep, hb]
      rw [ihs]
      simp

theorem run_data_stuck (p : List Nat) (s : spherecas_state)
    (hs : s.read_state = ReadState.READ_DATA)
    (hexp : s.data_count_expected = 0)
    (hread : 1 ≤ s.data_count_read) :
    (spherecas_read_bytes s p).2 = [] ∧
      (spherecas_read_bytes s p).1.read_state = ReadState.READ_DATA := by
  induction p generalizing s with
  | nil => exact ⟨rfl, hs⟩
  | cons b q ih =>
    have hb := read_byte_data s b hs
    have h1 : s.data_count_read + 1 ≠ s.data_count_expected := by omega
    simp only [spherecas_read_bytes, hb, List.nil_append]
    exact ih _ (by simp [h1]) (by simp [hexp]) (by simp)

theorem typeFold_eq_any (t : spherecas_blocktype) (p : List Nat) :
    typeFold t p =
      if p.any (fun b => b &&& 0x80 != 0) then spherecas_blocktype.OBJECT
      else t := by
  induction p generalizing t with
  | nil => simp [typeFold]
  | cons b q ih =>
    have hstep : typeFold t (b :: q) =
        typeFold
          (if b &&& 0x80 ≠ 0 then spherecas_blocktype.OBJECT else t) q := rfl
    rw [hstep, ih]
    by_cases hb : b &&& 0x80 ≠ 0
    · simp [hb, List.any_cons, ite_self]
    · push_neg at hb
      simp [hb, List.any_cons]

/-! ### Decoding a whole well-formed block -/

theorem length_bytes_decode (L : Nat) (h1 : 1 ≤ L) (h2 : L ≤ 65535) :
    (((((L - 1) / 256) <<< 8) % 65536 ||| ((L - 1) % 256)) + 1) % 65536 =
      L := by
  have hd : (L - 1) % 256 < 256 := Nat.mod_lt _ (by norm_num)
  have hsh : ((L - 1) / 256) <<< 8 = 2 ^ 8 * ((L - 1) / 256) := by
    rw [Nat.shiftLeft_eq, Nat.mul_comm]
  have hlt : 2 ^ 8 * ((L - 1) / 256) < 65536 := by
    have : (L - 1) / 256 ≤ 255 := by omega
    omega
  have key : ((L - 1) / 256) <<< 8 % 65536 ||| ((L - 1) % 256) = L - 1 := by
    rw [hsh, Nat.mod_eq_of_lt hlt, ← Nat.mul_add_lt_is_or hd]
    omega
  rw [key]
  omega

theorem run_header_bytes (nm : Nat × Nat) (L : Nat)
    (h1 : 1 ≤ L) (h2 : L ≤ 65535) :
    spherecas_read_bytes
      ({ spherecas_initial with
          read_state := ReadState.READ_HEADER_START })
      [HEADER_ESC, (L - 1) / 256, (L - 1) % 256, nm.1, nm.2] =
    ({ read_state := ReadState.READ_DATA
       block_name := (nm.1, nm.2)
       data_count_expected := L
       data_count_read := 0
       data := []
       checksum := 0
       block_type := spherecas_blocktype.TEXT }, []) := by
  have hlen := length_bytes_decode L h1 h2
  simp [spherecas_read_bytes, spherecas_read_byte, spherecas_initial,
    HEADER_ESC, HEADER_SYNC, hlen]

theorem run_encodeBlockWith (n : Nat) (nm : Nat × Nat) (p : List Nat)
    (c : Nat) (hn : 1 ≤ n) (hp1 : 1 ≤ p.length) (hp2 : p.length ≤ 65535) :
    spherecas_read_bytes spherecas_initial (encodeBlockWith n nm p c) =
      ({ spherecas_initial with block_name := nm },
       [{ block_name := nm, data := p, length := p.length,
          block_type := typeFold spherecas_blocktype.TEXT p,
          error := if c ≠ p.sum % 256 then spherecas_error.CHECKSUM
                   else spherecas_error.NONE }]) := by
  unfold encodeBlockWith
  rw [List.append_assoc, List.append_assoc]
  rw [run_append, run_initial_sync n hn]
  rw [run_append, run_header_bytes nm p.length hp1 hp2]
  rw [run_append]
  have hdata := run_data_full p
    ({ read_state := ReadState.READ_DATA
       block_name := (nm.1, nm.2)
       data_count_expected := p.length
       data_count_read := 0
       data := []
       checksum := 0
       block_type := spherecas_blocktype.TEXT })
    rfl (by simp) (by intro h; subst h; simp at hp1)
  rw [hdata]
  have htail :
      spherecas_read_bytes
        ({ read_state := ReadState.READ_ETB
           block_name := (nm.1, nm.2)
           data_count_expected := p.length
           data_count_read := p.length
           data := [] ++ p
           checksum := (0 + p.sum) % 256
           block_type := typeFold spherecas_blocktype.TEXT p })
        [HEADER_ETB, c] =
      (spherecas_begin_read
        ({ read_state := ReadState.READ_ETB
           block_name := (nm.1, nm.2)
           data_count_expected := p.length
           data_count_read := p.length
           data := [] ++ p
           checksum := (0 + p.sum) % 256
           block_type := typeFold spherecas_blocktype.TEXT p }),
       [{ block_name := (nm.1, nm.2), data := p, length := p.length,
          block_type := typeFold spherecas_blocktype.TEXT p,
          error := if c ≠ p.sum % 256 then spherecas_error.CHECKSUM
                   else spherecas_error.NONE }]) := by
    simp [spherecas_read_bytes, spherecas_read_byte, HEADER_ETB,
      spherecas_begin_read]
  rw [htail]
  simp [spherecas_begin_read, spherecas_initial]

/-! ### Claim theorems -/

/-- Claim C1 (evaluation of the code at the failing input): for the raw
declared-length bytes 0xFF 0xFF, after the Length Low byte the decoder's
`data_count_expected` is 0 (the uint16 increment wraps), but after the
second name byte the machine is in the `READ_DATA` state — it has NOT
transitioned past the Data phase to the Trailer phase — and the very
next byte, even the end-of-transmission marker 0x17, is consumed as a
payload byte. -/
theorem claim_C1_zero_length_behavior :
    ((spherecas_read_bytes spherecas_initial
        [0x16, 0x1B, 0xFF, 0xFF, 0x41, 0x42]).1.data_count_expected = 0 ∧
     (spherecas_read_bytes spherecas_initial
        [0x16, 0x1B, 0xFF, 0xFF, 0x41, 0x42]).1.read_state =
       ReadState.READ_DATA) ∧
    ((spherecas_read_bytes spherecas_initial
        [0x16, 0x1B, 0xFF, 0xFF, 0x41, 0x42, 0x17]).1.read_state =
       ReadState.READ_DATA ∧
     (spherecas_read_bytes spherecas_initial
        [0x16, 0x1B, 0xFF, 0xFF, 0x41, 0x42, 0x17]).1.data = [0x17] ∧
     (spherecas_read_bytes spherecas_initial
        [0x16, 0x1B, 0xFF, 0xFF, 0x41, 0x42, 0x17]).2 = []) := by
  decide

/-- Claim C2 (evaluation of the code at the failing input): after the
0xFF 0xFF declared-length header and one payload byte, the decoder state
has `data_count_read = 1 > data_count_expected = 0`, violating the
claimed invariant `bytes_consumed ≤ expected_length`. -/
theorem claim_C2_invariant_violated :
    (spherecas_read_bytes spherecas_initial
        [0x16, 0x1B, 0xFF, 0xFF, 0x41, 0x42, 0x00]).1.data_count_expected
        = 0 ∧
    ¬ ((spherecas_read_bytes spherecas_initial
          [0x16, 0x1B, 0xFF, 0xFF, 0x41, 0x42, 0x00]).1.data_count_read ≤
        (spherecas_read_bytes spherecas_initial
          [0x16, 0x1B, 0xFF, 0xFF, 0x41, 0x42,
           0x00]).1.data_count_expected) := by
  decide

/-- Claim C3, counterexample: for a payload of length 65536 the claimed
round trip fails — the well-formed encoding (declared length 65535, the
raw bytes 0xFF 0xFF) produces NO block event at all, because the wrapped
`data_count_expected = 0` is never reached again by `data_count_read`,
so the decoder never leaves the data phase. -/
theorem claim_C3_counterexample :
    (spherecas_read_bytes spherecas_initial
      (encodeBlock 1 (0x41, 0x42) (List.replicate 65536 0))).2 = [] := by
  have sum_replicate_zero : ∀ k : Nat, (List.replicate k (0 : Nat)).sum = 0 := by
    intro k
    induction k with
    | zero => rfl
    | succ k ih => rw [List.replicate_succ, List.sum_cons, ih]
  have hrep : List.replicate 65536 (0 : Nat) = 0 :: List.replicate 65535 0 := by
    rw [show (65536 : Nat) = 65535 + 1 by norm_num, List.replicate_succ]
  have hl : encodeBlock 1 (0x41, 0x42) (List.replicate 65536 0) =
      [0x16, 0x1B, 0xFF, 0xFF, 0x41, 0x42, 0x00] ++
        (List.replicate 65535 0 ++ [0x17, 0x00]) := by
    unfold encodeBlock encodeBlockWith
    rw [hrep]
    set l : List Nat := List.replicate 65535 0 with hldef
    have hlen : (0 :: l).length - 1 = 65535 := by
      rw [List.length_cons, hldef, List.length_replicate]
    have hsum : (0 :: l).sum = 0 := by
      rw [List.sum_cons, hldef, sum_replicate_zero]
    rw [hlen, hsum]
    norm_num [HEADER_SYNC, HEADER_ESC, HEADER_ETB]
  have h7 : spherecas_read_bytes spherecas_initial
      [0x16, 0x1B, 0xFF, 0xFF, 0x41, 0x42, 0x00] =
      ({ read_state := ReadState.READ_DATA, block_name := (0x41, 0x42),
         data_count_expected := 0, data_count_read := 1, data := [0],
         checksum := 0, block_type := spherecas_blocktype.TEXT }, []) := by
    decide
  have hstuck := run_data_stuck (List.replicate 65535 0 ++ [0x17, 0x00])
    ({ read_state := ReadState.READ_DATA, block_name := (0x41, 0x42),
       data_count_expected := 0, data_count_read := 1, data := [0],
       checksum := 0, block_type := spherecas_blocktype.TEXT })
    rfl rfl (by norm_num)
  rw [hl, run_append, h7]
  dsimp only
  rw [List.nil_append, hstuck.1]

/-- Claim C3, amended (payload lengths 1 to 65535; a 65536-byte payload
has declared length 0xFFFF and hits the zero-wrap bug refuted above):
feeding the well-formed encoding of a block — a sync run of any length
at least 1, the escape marker, the big-endian declared length equal to
payload length minus one, the two name bytes, the payload, the end
marker 0x17 and the mod-256 checksum — into a freshly begun decoder
emits exactly one block event, with error classification NONE and
payload bytes equal to the original payload bytes in order. -/
theorem claim_C3_roundtrip (n : Nat) (nm : Nat × Nat) (p : List Nat)
    (hn : 1 ≤ n) (hp1 : 1 ≤ p.length) (hp2 : p.length ≤ 65535) :
    ∃ ev : BlockEvent,
      (spherecas_read_bytes spherecas_initial
        (encodeBlock n nm p)).2 = [ev] ∧
      ev.error = spherecas_error.NONE ∧
      ev.data = p ∧
      ev.block_name = nm ∧
      ev.length = p.length := by
  have h := run_encodeBlockWith n nm p (p.sum % 256) hn hp1 hp2
  unfold encodeBlock
  exact ⟨_, by rw [h], by simp, rfl, rfl, rfl⟩

/-- Witness for C3 at the spec's own concrete scenario: sync run of 3,
name "AB", payload [1,2,3,4,5]. -/
theorem claim_C3_roundtrip_witness :
    ∃ ev : BlockEvent,
      (spherecas_read_bytes spherecas_initial
        (encodeBlock 3 (0x41, 0x42) [1, 2, 3, 4, 5])).2 = [ev] ∧
      ev.error = spherecas_error.NONE ∧
      ev.data = [1, 2, 3, 4, 5] ∧
      ev.block_name = (0x41, 0x42) ∧
      ev.length = [1, 2, 3, 4, 5].length :=
  claim_C3_roundtrip 3 (0x41, 0x42) [1, 2, 3, 4, 5]
    (by decide) (by decide) (by decide)

/-- Claim C4: if the byte following the complete payload is not the
end-of-transmission marker 0x17, the decoder immediately emits a block
event with the payload accumulated so far and error classification
TRAILER, resets to the state produced by `spherecas_begin_read`, and the
offending byte is consumed — the rest of the stream is processed from
the freshly reset state, so the byte is never reconsidered as data for a
following block. -/
theorem claim_C4_trailer_error (s : spherecas_state) (b : Nat)
    (rest : List Nat)
    (hs : s.read_state = ReadState.READ_ETB) (hb : b ≠ HEADER_ETB) :
    spherecas_read_bytes s (b :: rest) =
      ((spherecas_read_bytes (spherecas_begin_read s) rest).1,
       { block_name := s.block_name, data := s.data,
         length := s.data_count_read, block_type := s.block_type,
         error := spherecas_error.TRAILER } ::
         (spherecas_read_bytes (spherecas_begin_read s) rest).2) := by
  have hstep : spherecas_read_byte s b =
      (spherecas_begin_read s,
       [{ block_name := s.block_name, data := s.data,
          length := s.data_count_read, block_type := s.block_type,
          error := spherecas_error.TRAILER }]) := by
    simp [spherecas_read_byte, hs, hb]
  simp [spherecas_read_bytes, hstep]

/-- Witness for C4: a decoder that has consumed payload [9] and expects
the trailer, fed 0x00 followed by a sync byte. -/
theorem claim_C4_trailer_error_witness :
    spherecas_read_bytes
      ({ read_state := ReadState.READ_ETB, block_name := (0x41, 0x42),
         data_count_expected := 1, data_count_read := 1, data := [9],
         checksum := 9, block_type := spherecas_blocktype.TEXT })
      (0x00 :: [0x16]) =
      ((spherecas_read_bytes
          (spherecas_begin_read
            { read_state := ReadState.READ_ETB, block_name := (0x41, 0x42),
              data_count_expected := 1, data_count_read := 1, data := [9],
              checksum := 9, block_type := spherecas_blocktype.TEXT })
          [0x16]).1,
       { block_name := (0x41, 0x42), data := [9], length := 1,
         block_type := spherecas_blocktype.TEXT,
         error := spherecas_error.TRAILER } ::
         (spherecas_read_bytes
            (spherecas_begin_read
              { read_state := ReadState.READ_ETB, block_name := (0x41, 0x42),
                data_count_expected := 1, data_count_read := 1, data := [9],
                checksum := 9, block_type := spherecas_blocktype.TEXT })
            [0x16]).2) :=
  claim_C4_trailer_error _ 0x00 [0x16] rfl (by decide)

/-- Claim C6: the decoder's behaviour is independent of the length of
the leading sync run: for any two run lengths n, m ≥ 1 and any block
body, the full run result (final state and all emitted block events) is
identical. -/
theorem claim_C6_sync_run_independence (n m : Nat) (body : List Nat)
    (hn : 1 ≤ n) (hm : 1 ≤ m) :
    spherecas_read_bytes spherecas_initial
        (List.replicate n HEADER_SYNC ++ body) =
      spherecas_read_bytes spherecas_initial
        (List.replicate m HEADER_SYNC ++ body) := by
  rw [run_append, run_append, run_initial_sync n hn, run_initial_sync m hm]

/-- Witness for C6: runs of length 1 and 5 in front of a complete
well-formed block body. -/
theorem claim_C6_sync_run_independence_witness :
    spherecas_read_bytes spherecas_initial
        (List.replicate 1 HEADER_SYNC ++
          [0x1B, 0x00, 0x00, 0x41, 0x42, 0x07, 0x17, 0x07]) =
      spherecas_read_bytes spherecas_initial
        (List.replicate 5 HEADER_SYNC ++
          [0x1B, 0x00, 0x00, 0x41, 0x42, 0x07, 0x17, 0x07]) :=
  claim_C6_sync_run_independence 1 5
    [0x1B, 0x00, 0x00, 0x41, 0x42, 0x07, 0x17, 0x07]
    (by decide) (by decide)

/-! ### Checksum sensitivity -/

theorem sum_set_mod_ne (p : List Nat) (i : Nat) (v : Nat)
    (hi : i < p.length) (hbytes : ∀ b ∈ p, b < 256) (hv : v < 256)
    (hne : v ≠ p.get ⟨i, hi⟩) :
    (p.set i v).sum % 256 ≠ p.sum % 256 := by
  induction p generalizing i with
  | nil => simp at hi
  | cons b q ih =>
    cases i with
    | zero =>
      have hb : b < 256 := hbytes b (by simp)
      have hne' : v ≠ b := by simpa using hne
      simp only [List.set_cons_zero, List.sum_cons]
      omega
    | succ j =>
      have hj : j < q.length := by simpa using hi
      have hne' : v ≠ q.get ⟨j, hj⟩ := by simpa using hne
      have hq : ∀ b ∈ q, b < 256 := fun x hx => hbytes x (by simp [hx])
      have hrec := ih j hj hq hne'
      simp only [List.set_cons_succ, List.sum_cons]
      omega

/-- Claim C5: for every well-formed encoded block and every single
payload position, changing that one payload byte to any different byte
value while leaving the checksum byte unchanged yields a block event
whose error classification is CHECKSUM, never NONE. -/
theorem claim_C5_checksum_flip (n : Nat) (nm : Nat × Nat) (p : List Nat)
    (i : Nat) (v : Nat) (hn : 1 ≤ n) (hp1 : 1 ≤ p.length)
    (hp2 : p.length ≤ 65535) (hi : i < p.length)
    (hbytes : ∀ b ∈ p, b < 256) (hv : v < 256)
    (hne : v ≠ p.get ⟨i, hi⟩) :
    ∃ ev : BlockEvent,
      (spherecas_read_bytes spherecas_initial
        (encodeBlockWith n nm (p.set i v) (p.sum % 256))).2 = [ev] ∧
      ev.error = spherecas_error.CHECKSUM := by
  have hlen : (p.set i v).length = p.length := by simp
  have h := run_encodeBlockWith n nm (p.set i v) (p.sum % 256) hn
    (by rw [hlen]; exact hp1) (by rw [hlen]; exact hp2)
  have hsum := sum_set_mod_ne p i v hi hbytes hv hne
  refine ⟨_, by rw [h], ?_⟩
  simp [Ne.symm hsum]

/-- Witness for C5: payload [1,2,3], position 1 changed from 2 to 9,
checksum byte left at (1+2+3) mod 256 = 6. -/
theorem claim_C5_checksum_flip_witness :
    ∃ ev : BlockEvent,
      (spherecas_read_bytes spherecas_initial
        (encodeBlockWith 1 (0x41, 0x42) ([1, 2, 3].set 1 9)
          ([1, 2, 3].sum % 256))).2 = [ev] ∧
      ev.error = spherecas_error.CHECKSUM :=
  claim_C5_checksum_flip 1 (0x41, 0x42) [1, 2, 3] 1 9
    (by decide) (by decide) (by decide) (by decide) (by decide) (by decide)
    (by decide)

/-! ### Content classification -/

set_option maxRecDepth 4000 in
theorem high_bit_test (b : Nat) (hb : b < 256) :
    b &&& 0x80 ≠ 0 ↔ 0x80 ≤ b := by
  revert hb
  revert b
  decide

/-- Claim C7: for every delimited block, the emitted event's content
classification is TEXT when all payload bytes are below 0x80 and OBJECT
when at least one payload byte is ≥ 0x80; moreover the classification is
sticky — during the data phase a state already classified OBJECT keeps
that classification whatever byte arrives next. -/
theorem claim_C7_classification (n : Nat) (nm : Nat × Nat) (p : List Nat)
    (c : Nat) (hn : 1 ≤ n) (hp1 : 1 ≤ p.length) (hp2 : p.length ≤ 65535)
    (hbytes : ∀ b ∈ p, b < 256) :
    (∃ ev : BlockEvent,
      (spherecas_read_bytes spherecas_initial
        (encodeBlockWith n nm p c)).2 = [ev] ∧
      ev.block_type =
        (if ∃ b ∈ p, 0x80 ≤ b then spherecas_blocktype.OBJECT
         else spherecas_blocktype.TEXT)) ∧
    (∀ s : spherecas_state, ∀ b : Nat,
      s.read_state = ReadState.READ_DATA →
      s.block_type = spherecas_blocktype.OBJECT →
      (spherecas_read_byte s b).1.block_type =
        spherecas_blocktype.OBJECT) := by
  constructor
  · have h := run_encodeBlockWith n nm p c hn hp1 hp2
    refine ⟨_, by rw [h], ?_⟩
    show typeFold spherecas_blocktype.TEXT p = _
    rw [typeFold_eq_any]
    have hcond : (p.any (fun b => b &&& 0x80 != 0) = true) ↔
        (∃ b ∈ p, 0x80 ≤ b) := by
      rw [List.any_eq_true]
      constructor
      · rintro ⟨b, hbm, hbt⟩
        exact ⟨b, hbm, (high_bit_test b (hbytes b hbm)).1 (by simpa using hbt)⟩
      · rintro ⟨b, hbm, hbt⟩
        exact ⟨b, hbm, by
          simpa using (high_bit_test b (hbytes b hbm)).2 hbt⟩
    by_cases hx : ∃ b ∈ p, 0x80 ≤ b
    · rw [if_pos (hcond.2 hx), if_pos hx]
    · rw [if_neg (fun hh => hx (hcond.1 hh)), if_neg hx]
  · intro s b hs hobj
    rw [read_byte_data s b hs]
    by_cases hb : b &&& 0x80 ≠ 0 <;> simp [hb, hobj]

/-- Witness for C7 at a block whose payload [1, 0x90] contains a
high-bit byte. -/
theorem claim_C7_classification_witness :
    (∃ ev : BlockEvent,
      (spherecas_read_bytes spherecas_initial
        (encodeBlockWith 1 (0x41, 0x42) [1, 0x90] 0x91)).2 = [ev] ∧
      ev.block_type =
        (if ∃ b ∈ ([1, 0x90] : List Nat), 0x80 ≤ b then
          spherecas_blocktype.OBJECT
         else spherecas_blocktype.TEXT)) ∧
    (∀ s : spherecas_state, ∀ b : Nat,
      s.read_state = ReadState.READ_DATA →
      s.block_type = spherecas_blocktype.OBJECT →
      (spherecas_read_byte s b).1.block_type =
        spherecas_blocktype.OBJECT) :=
  claim_C7_classification 1 (0x41, 0x42) [1, 0x90] 0x91
    (by decide) (by decide) (by decide) (by decide)

/-! ### Truncated streams -/

theorem run_take_events_nil (s : spherecas_state) (l : List Nat) (k : Nat)
    (h : (spherecas_read_bytes s l).2 = []) :
    (spherecas_read_bytes s (l.take k)).2 = [] := by
  have hl := List.take_append_drop k l
  rw [← hl, run_append] at h
  exact (List.append_eq_nil.1 h).1

theorem run_front_events (n : Nat) (nm : Nat × Nat) (p : List Nat)
    (hn : 1 ≤ n) (hp1 : 1 ≤ p.length) (hp2 : p.length ≤ 65535) :
    (spherecas_read_bytes spherecas_initial
      (List.replicate n HEADER_SYNC ++
        [HEADER_ESC, (p.length - 1) / 256, (p.length - 1) % 256,
         nm.1, nm.2] ++ p ++ [HEADER_ETB])).2 = [] := by
  rw [List.append_assoc, List.append_assoc]
  rw [run_append, run_initial_sync n hn]
  rw [run_append, run_header_bytes nm p.length hp1 hp2]
  rw [run_append]
  rw [run_data_full p
    ({ read_state := ReadState.READ_DATA
       block_name := (nm.1, nm.2)
       data_count_expected := p.length
       data_count_read := 0
       data := []
       checksum := 0
       block_type := spherecas_blocktype.TEXT })
    rfl (by simp) (by intro h; subst h; simp at hp1)]
  simp [spherecas_read_bytes, spherecas_read_byte, HEADER_ETB]

/-- Claim C8: an input stream that ends partway through a block — any
proper truncation of a well-formed encoding, in particular one exhausted
before the checksum byte — produces zero block events: the partial block
is silently discarded. -/
theorem claim_C8_truncated (n : Nat) (nm : Nat × Nat) (p : List Nat)
    (k : Nat) (hn : 1 ≤ n) (hp1 : 1 ≤ p.length) (hp2 : p.length ≤ 65535)
    (hk : k < (encodeBlock n nm p).length) :
    (spherecas_read_bytes spherecas_initial
      ((encodeBlock n nm p).take k)).2 = [] := by
  have hsplit : encodeBlock n nm p =
      (List.replicate n HEADER_SYNC ++
        [HEADER_ESC, (p.length - 1) / 256, (p.length - 1) % 256,
         nm.1, nm.2] ++ p ++ [HEADER_ETB]) ++ [p.sum % 256] := by
    unfold encodeBlock encodeBlockWith
    simp [List.append_assoc]
  have hk' : k ≤ (List.replicate n HEADER_SYNC ++
      [HEADER_ESC, (p.length - 1) / 256, (p.length - 1) % 256,
       nm.1, nm.2] ++ p ++ [HEADER_ETB]).length := by
    rw [hsplit] at hk
    simp [List.length_append] at hk ⊢
    omega
  have htk : (encodeBlock n nm p).take k =
      (List.replicate n HEADER_SYNC ++
        [HEADER_ESC, (p.length - 1) / 256, (p.length - 1) % 256,
         nm.1, nm.2] ++ p ++ [HEADER_ETB]).take k := by
    rw [hsplit, List.take_append_eq_append_take,
      Nat.sub_eq_zero_of_le hk']
    simp
  rw [htk]
  exact run_take_events_nil _ _ k (run_front_events n nm p hn hp1 hp2)

/-- Witness for C8 at the spec's concrete scenario: the encoding of the
block with name "AB" and payload [1,2,3,4,5], truncated mid-payload
(after sync, escape, length, name and two of the five payload bytes). -/
theorem claim_C8_truncated_witness :
    (spherecas_read_bytes spherecas_initial
      ((encodeBlock 3 (0x41, 0x42) [1, 2, 3, 4, 5]).take 10)).2 = [] :=
  claim_C8_truncated 3 (0x41, 0x42) [1, 2, 3, 4, 5] 10
    (by decide) (by decide) (by decide) (by decide)

/-! ### The trailer-phase payload invariant -/

/-- States in which the byte list mirrors the write index, and in which
the trailer-expecting state can only hold the full declared payload. -/
def GoodState (s : spherecas_state) : Prop :=
  s.data.length = s.data_count_read ∧
  (s.read_state = ReadState.READ_ETB →
    s.data_count_read = s.data_count_expected)

theorem read_byte_good (s : spherecas_state) (b : Nat)
    (h : GoodState s) : GoodState (spherecas_read_byte s b).1 := by
  obtain ⟨h1, h2⟩ := h
  unfold GoodState
  cases hs : s.read_state <;>
    simp only [spherecas_read_byte, hs, spherecas_begin_read] <;>
    (try split_ifs) <;>
    simp_all

theorem run_good (l : List Nat) (s : spherecas_state)
    (h : GoodState s) : GoodState (spherecas_read_bytes s l).1 := by
  induction l generalizing s with
  | nil => exact h
  | cons b rest ih => exact ih _ (read_byte_good s b h)

/-- Claim C9: every block event emitted with error classification
TRAILER carries a payload of exactly `data_count_expected` bytes — the
full declared payload — because the trailer phase is only entered once
`data_count_read` has reached `data_count_expected`.  Stated for an
arbitrary reachable decoder state (any byte list fed from the initial
state) and the next byte fed to it. -/
theorem claim_C9_trailer_full_payload (l : List Nat) (b : Nat)
    (ev : BlockEvent)
    (hev : ev ∈ (spherecas_read_byte
      (spherecas_read_bytes spherecas_initial l).1 b).2)
    (herr : ev.error = spherecas_error.TRAILER) :
    ev.data.length =
      (spherecas_read_bytes spherecas_initial l).1.data_count_expected ∧
    ev.length =
      (spherecas_read_bytes spherecas_initial l).1.data_count_expected := by
  have hg : GoodState (spherecas_read_bytes spherecas_initial l).1 :=
    run_good l spherecas_initial
      (by unfold GoodState spherecas_initial; simp)
  obtain ⟨h1, h2⟩ := hg
  cases hs : (spherecas_read_bytes spherecas_initial l).1.read_state
  case READ_SYNC =>
    simp only [spherecas_read_byte, hs] at hev
    split_ifs at hev <;> simp at hev
  case READ_HEADER_START =>
    simp only [spherecas_read_byte, hs] at hev
    split_ifs at hev <;> simp at hev
  case READ_DATA_LENGTH_HIGH =>
    simp only [spherecas_read_byte, hs] at hev
    simp at hev
  case READ_DATA_LENGTH_LOW =>
    simp only [spherecas_read_byte, hs] at hev
    simp at hev
  case READ_BLOCK_NAME_1 =>
    simp only [spherecas_read_byte, hs] at hev
    simp at hev
  case READ_BLOCK_NAME_2 =>
    simp only [spherecas_read_byte, hs] at hev
    simp at hev
  case READ_DATA =>
    rw [read_byte_data _ b hs] at hev
    simp at hev
  case READ_ETB =>
    simp only [spherecas_read_byte, hs] at hev
    split_ifs at hev
    · simp at hev
    · simp at hev
      have hread := h2 hs
      subst hev
      exact ⟨h1.trans hread, hread⟩
  case READ_CHECKSUM =>
    simp only [spherecas_read_byte, hs] at hev
    simp at hev
    rw [hev] at herr
    split_ifs at herr

/-- Witness for C9: after a complete 1-byte payload block up to its
payload, feeding a non-0x17 byte emits a TRAILER event whose payload
length equals the declared expected count. -/
theorem claim_C9_trailer_full_payload_witness :
    ({ block_name := (0x41, 0x42), data := [9], length := 1,
       block_type := spherecas_blocktype.TEXT,
       error := spherecas_error.TRAILER } : BlockEvent).data.length =
      (spherecas_read_bytes spherecas_initial
        [0x16, 0x1B, 0x00, 0x00, 0x41, 0x42, 0x09]).1.data_count_expected ∧
    ({ block_name := (0x41, 0x42), data := [9], length := 1,
       block_type := spherecas_blocktype.TEXT,
       error := spherecas_error.TRAILER } : BlockEvent).length =
      (spherecas_read_bytes spherecas_initial
        [0x16, 0x1B, 0x00, 0x00, 0x41, 0x42, 0x09]).1.data_count_expected :=
  claim_C9_trailer_full_payload [0x16, 0x1B, 0x00, 0x00, 0x41, 0x42, 0x09]
    0x00
    ({ block_name := (0x41, 0x42), data := [9], length := 1,
       block_type := spherecas_blocktype.TEXT,
       error := spherecas_error.TRAILER })
    (by decide) (by decide)

/-- Claim C10: in the data phase every byte value — including the sync
marker 0x16, the escape marker 0x1B and the end-of-transmission marker
0x17 — is appended to the payload and folded into the checksum exactly
like any other byte, no event is emitted, and the phase transition
depends only on the counters (it is the same as for the byte 0x00), so
the payload is 8-bit transparent and framing is purely length-based. -/
theorem claim_C10_data_transparency (s : spherecas_state) (b : Nat)
    (hs : s.read_state = ReadState.READ_DATA) :
    (spherecas_read_byte s b).2 = [] ∧
    (spherecas_read_byte s b).1.data = s.data ++ [b] ∧
    (spherecas_read_byte s b).1.checksum = (s.checksum + b) % 256 ∧
    (spherecas_read_byte s b).1.data_count_read = s.data_count_read + 1 ∧
    (spherecas_read_byte s b).1.read_state =
      (if s.data_count_read + 1 = s.data_count_expected then
        ReadState.READ_ETB
       else ReadState.READ_DATA) ∧
    (spherecas_read_byte s b).1.read_state =
      (spherecas_read_byte s 0x00).1.read_state := by
  have hb := read_byte_data s b hs
  have h0 := read_byte_data s 0x00 hs
  rw [hb, h0]
  simp

/-- Witness for C10: the end-of-transmission marker 0x17 fed mid-payload
is stored as a payload byte. -/
theorem claim_C10_data_transparency_witness :
    (spherecas_read_byte
      ({ read_state := ReadState.READ_DATA, block_name := (0x41, 0x42),
         data_count_expected := 2, data_count_read := 0, data := [],
         checksum := 0, block_type := spherecas_blocktype.TEXT })
      0x17).2 = [] ∧
    (spherecas_read_byte
      ({ read_state := ReadState.READ_DATA, block_name := (0x41, 0x42),
         data_count_expected := 2, data_count_read := 0, data := [],
         checksum := 0, block_type := spherecas_blocktype.TEXT })
      0x17).1.data = [] ++ [0x17] ∧
    (spherecas_read_byte
      ({ read_state := ReadState.READ_DATA, block_name := (0x41, 0x42),
         data_count_expected := 2, data_count_read := 0, data := [],
         checksum := 0, block_type := spherecas_blocktype.TEXT })
      0x17).1.checksum = (0 + 0x17) % 256 ∧
    (spherecas_read_byte
      ({ read_state := ReadState.READ_DATA, block_name := (0x41, 0x42),
         data_count_expected := 2, data_count_read := 0, data := [],
         checksum := 0, block_type := spherecas_blocktype.TEXT })
      0x17).1.data_count_read = 0 + 1 ∧
    (spherecas_read_byte
      ({ read_state := ReadState.READ_DATA, block_name := (0x41, 0x42),
         data_count_expected := 2, data_count_read := 0, data := [],
         checksum := 0, block_type := spherecas_blocktype.TEXT })
      0x17).1.read_state =
      (if 0 + 1 = 2 then ReadState.READ_ETB else ReadState.READ_DATA) ∧
    (spherecas_read_byte
      ({ read_state := ReadState.READ_DATA, block_name := (0x41, 0x42),
         data_count_expected := 2, data_count_read := 0, data := [],
         checksum := 0, block_type := spherecas_blocktype.TEXT })
      0x17).1.read_state =
      (spherecas_read_byte
        ({ read_state := ReadState.READ_DATA, block_name := (0x41, 0x42),
           data_count_expected := 2, data_count_read := 0, data := [],
           checksum := 0, block_type := spherecas_blocktype.TEXT })
        0x00).1.read_state :=
  claim_C10_data_transparency
    ({ read_state := ReadState.READ_DATA, block_name := (0x41, 0x42),
       data_count_expected := 2, data_count_read := 0, data := [],
       checksum := 0, block_type := spherecas_blocktype.TEXT })
    0x17 rfl
